import Mathlib

/-!
Verification of the serial-vault signing service against its specification.

The definitions below are a shallow embedding of the Go source:
* `service/sign/handlers_sign.go` — the `RequestID` and `Serial` handlers,
  `findModel` and `serialRequestToSerial`;
* the factory sync client (`FactoryClient.Accounts`, `SigningKeys`, `Models`,
  `SigningLogs`, `TestLogs`).

External collaborators (the database layer, the snapd assertion codec, the
YAML decoder, the HTTP stack) are modelled as data supplied to the handler:
the outcome of each database or keystore call for the run at hand is a field of an
environment record, and decoded assertions are records of the header values
the handlers read.  Functions from the `response` and `datastore` packages
that are not part of the source tree are modelled from the spec and marked
as such in their doc comments.
-/

namespace SerialVault

/-- An error envelope as returned by every handler
(`response.ErrorResponse` in the Go source): success flag, machine-readable
code, human message and the HTTP status code attached to the response. -/
structure ErrorResponse where
  success : Bool
  code : String
  message : String
  statusCode : Nat
deriving Repr, DecidableEq

/-- Modelled from the spec: the `response` package error constants are not
under the source tree.  Codes follow the error taxonomy of the spec; all
client-caused kinds carry HTTP 400. -/
def ErrorInvalidAPIKey : ErrorResponse :=
  ⟨false, "invalid-api-key", "Invalid API key used", 400⟩

/-- Modelled from the spec: empty request body. -/
def ErrorEmptyData : ErrorResponse :=
  ⟨false, "empty-data", "No data supplied", 400⟩

/-- Modelled from the spec: assertion decode failure. -/
def ErrorInvalidAssertion : ErrorResponse :=
  ⟨false, "invalid-assertion", "Error with the assertion", 400⟩

/-- Modelled from the spec: primary assertion has the wrong type. -/
def ErrorInvalidType : ErrorResponse :=
  ⟨false, "invalid-type", "The assertion type must be serial-request", 400⟩

/-- Modelled from the spec: optional second assertion has the wrong type. -/
def ErrorInvalidSecondType : ErrorResponse :=
  ⟨false, "invalid-second-type", "The second assertion type must be model", 400⟩

/-- Modelled from the spec: nonce unknown, used or expired. -/
def ErrorInvalidNonce : ErrorResponse :=
  ⟨false, "invalid-nonce", "The nonce is invalid or expired", 400⟩

/-- Modelled from the spec: model resolution failed on the direct lookup. -/
def ErrorInvalidModel : ErrorResponse :=
  ⟨false, "invalid-model", "Cannot find model with the matching brand and model", 400⟩

/-- Modelled from the spec: model resolution failed on the sub-store lookup. -/
def ErrorInvalidModelSubstore : ErrorResponse :=
  ⟨false, "invalid-model-substore", "Cannot find sub-store model for the pivot", 400⟩

/-- Modelled from the spec: the resolved model has an inactive keypair. -/
def ErrorInactiveModel : ErrorResponse :=
  ⟨false, "inactive-model", "The model is linked with an inactive signing key", 400⟩

/-- Modelled from the spec: no serial in header or body. -/
def ErrorEmptySerial : ErrorResponse :=
  ⟨false, "empty-serial", "The serial number is missing from the request", 400⟩

/-- Modelled from the spec: assertion assembly failed. -/
def ErrorCreateAssertion : ErrorResponse :=
  ⟨false, "create-assertion", "Error creating the serial assertion", 400⟩

/-- Modelled from the spec: the duplicate check could not be carried out. -/
def ErrorDuplicateAssertion : ErrorResponse :=
  ⟨false, "duplicate-assertion", "Error checking if the serial number is a duplicate", 400⟩

/-- Modelled from the spec: nonce generation failed. -/
def ErrorGenerateNonce : ErrorResponse :=
  ⟨false, "generate-request-id", "Error generating the request-id", 400⟩

/-- The trivially successful response `response.ErrorResponse{Success: true}`. -/
def SuccessResponse : ErrorResponse := ⟨true, "", "", 0⟩

/-- A dynamically typed value as produced by `yaml.Unmarshal` into a Go
`map[string]interface{}`: the cases the signing path can meet are strings
and numbers.  A non-string value is what makes the unchecked type assertion
in `serialRequestToSerial` panic. -/
inductive YVal where
  | str : String → YVal
  | num : Int → YVal
deriving Repr, DecidableEq

/-- `datastore.Model`: the fields the signing handlers read. -/
structure Model where
  brandID : String
  name : String
  apiKey : String
  authorityID : String
  keyID : String
  sealedKey : String
  keyActive : Bool
deriving Repr, DecidableEq

/-- The zero value of `datastore.Model`, returned by a failed `FindModel`. -/
def Model.zero : Model := ⟨"", "", "", "", "", "", false⟩

/-- `datastore.Substore`: the sub-store (pivot) row; the handlers only read
`FromModel`, the origin model with the sub-store overrides applied by the
database layer. -/
structure Substore where
  fromModel : Model
  store : String
  serialNumber : String
  modelName : String
deriving Repr, DecidableEq

/-- `datastore.SigningLog`: one signing-log entry. `synced` is the
factory-side replication flag. -/
structure SigningLog where
  id : Nat
  make : String
  model : String
  serialNumber : String
  fingerprint : String
  revision : Nat
  synced : Bool
deriving Repr, DecidableEq

/-- Association-list lookup mirroring a Go map read: `m[k]` is `nil` when
the key is absent. -/
def ylookup : List (String × YVal) → String → Option YVal
  | [], _ => none
  | (k, v) :: rest, key => if k = key then some v else ylookup rest key

/-- The largest revision across prior signing-log entries for the
(brand, model, serial) tuple, or 0 if none. -/
def maxRevisionFor (db : List SigningLog) (make model serial : String) : Nat :=
  (db.filter (fun e =>
    e.make = make && e.model = model && e.serialNumber = serial)).foldl
    (fun acc e => Nat.max acc e.revision) 0

/-- Modelled from the spec: `datastore.CheckForDuplicate` is not under the
source tree.  The duplicate flag is true iff any prior entry exists for the
same (brand, model, serial) with the same fingerprint, or any such entry
with a different fingerprint; the second component is the largest prior
revision for the tuple, or 0 if none. -/
def CheckForDuplicate (db : List SigningLog) (l : SigningLog) : Bool × Nat :=
  let tuple := db.filter (fun e =>
    e.make = l.make && e.model = l.model && e.serialNumber = l.serialNumber)
  ((tuple.any (fun e => e.fingerprint = l.fingerprint)
      || tuple.any (fun e => e.fingerprint ≠ l.fingerprint)),
    maxRevisionFor db l.make l.model l.serialNumber)

/-- A decoded serial-request assertion: the header values and body content
the `Serial` handler reads.  Scalar assertion headers are strings in the
snapd wire format, so the `serial` header is an optional string; the body is
carried together with the result of decoding it as YAML (`bodyYaml`, empty
when the decode fails — the handler ignores YAML errors). -/
structure Assertion where
  type : String
  brandID : String
  model : String
  serialHeader : Option String
  deviceKey : String
  signKeySha3 : String
  bodyLengthHeader : String
  requestID : String
  bodyLen : Nat
  bodyYaml : List (String × YVal)
  signKeyID : String
  content : String
  signature : String
deriving Repr, DecidableEq

/-- The environment of one `findModel` call: the presented API key and the
outcomes of the two database lookups for this run
(`DB.FindModel(brand, model, apiKey)` and
`DB.GetSubstoreModel(brand, model, serial)`). -/
structure FindModelEnv where
  apiKey : String
  findModelDB : Except Unit Model
  getSubstoreModel : Except Unit Substore

/-- The result of `findModel` together with whether the sub-store query was
issued. -/
structure FindModelResult where
  model : Model
  resp : ErrorResponse
  substoreQueried : Bool
deriving Repr, DecidableEq

/-- `findModel` (handlers_sign.go lines 184-208): try the direct
(brand, model, api-key) lookup; on failure fall back to the sub-store row
and accept it only when its origin model carries the presented API key. -/
def findModel (env : FindModelEnv) : FindModelResult :=
  match env.findModelDB with
  | .ok model => ⟨model, SuccessResponse, false⟩
  | .error _ =>
    match env.getSubstoreModel with
    | .error _ => ⟨Model.zero, ErrorInvalidModelSubstore, true⟩
    | .ok substore =>
      if substore.fromModel.apiKey = env.apiKey then
        ⟨substore.fromModel, SuccessResponse, true⟩
      else
        ⟨substore.fromModel, ErrorInvalidModelSubstore, true⟩

/-- The headers of the serial assertion built by `serialRequestToSerial`
(handlers_sign.go lines 215-225 and 256-261). -/
structure SerialHeaders where
  type : String
  authorityID : String
  brandID : String
  serial : String
  deviceKey : String
  signKeySha3 : String
  deviceKeySha3 : String
  model : String
  timestamp : String
  revision : String
  bodyLength : Option String
deriving Repr, DecidableEq

/-- Outcome of `serialRequestToSerial`: a Go error, a runtime panic of the
unchecked `headers["serial"].(string)` type assertion, or the assembled
serial-assertion headers together with the completed signing-log entry. -/
inductive SROutcome where
  | panicked : SROutcome
  | err : String → SROutcome
  | ok : SerialHeaders → SigningLog → SROutcome
deriving Repr, DecidableEq

/-- `serialRequestToSerial` (handlers_sign.go lines 211-266): build the
serial-assertion headers from the serial-request; prefer the serial header
and fall back to the `serial` key of the YAML body; fail when neither is
present; panic when the value used is not a string; compute the next
revision as the largest prior revision plus one, logging (not aborting on) a
detected duplicate. -/
def serialRequestToSerial (now : String) (db : List SigningLog)
    (a : Assertion) (slog0 : SigningLog) : SROutcome :=
  let serial0 : Option YVal := a.serialHeader.map YVal.str
  let serial1 : Option YVal :=
    if serial0 = none ∨ serial0 = some (YVal.str "") then
      ylookup a.bodyYaml "serial"
    else serial0
  match serial1 with
  | none => SROutcome.err ErrorEmptySerial.message
  | some (YVal.num _) => SROutcome.panicked
  | some (YVal.str s) =>
    let slog1 : SigningLog := { slog0 with serialNumber := s }
    let dupMax := CheckForDuplicate db slog1
    let slog2 : SigningLog := { slog1 with revision := dupMax.2 + 1 }
    SROutcome.ok
      { type := "serial"
        authorityID := a.brandID
        brandID := a.brandID
        serial := s
        deviceKey := a.deviceKey
        signKeySha3 := a.signKeySha3
        deviceKeySha3 := a.signKeySha3
        model := a.model
        timestamp := now
        revision := toString slog2.revision
        bodyLength := if a.bodyLen > 0 then some a.bodyLengthHeader else none }
      slog2

/-- Outcome of one `asserts.Decoder.Decode()` call: end of stream, a decode
error with its message, or a decoded assertion. -/
inductive DecodeResult where
  | eof : DecodeResult
  | err : String → DecodeResult
  | ok : Assertion → DecodeResult
deriving Repr, DecidableEq

/-- The environment of one `Serial` call: the request body decode results and
the outcome of every external call the handler makes during this run. -/
structure SerialEnv where
  checkModelAPI : Except Unit String
  decode1 : DecodeResult
  decode2 : DecodeResult
  decode3 : DecodeResult
  validateDeviceNonce : Except Unit Unit
  findModelDB : Except Unit Model
  getSubstoreModel : Except Unit Substore
  signAssertion : Except String String
  createSigningLog : Except String Unit
  signingDB : List SigningLog
  now : String

/-- Observable outcome of a `Serial` call: the error envelope returned to
the router, the signed assertion written to the response body (if any), and
which of the sign and persist steps were reached and succeeded.  `panicked`
records the runtime panic of the unchecked type assertion, which aborts the
handler before any response is produced. -/
structure SerialOutcome where
  resp : ErrorResponse
  written : Option String
  signAttempted : Bool
  signSucceeded : Bool
  logAttempted : Bool
  logCreated : Bool
  panicked : Bool
deriving Repr, DecidableEq

/-- A `Serial` outcome that failed before the sign step. -/
def SerialOutcome.earlyErr (e : ErrorResponse) : SerialOutcome :=
  ⟨e, none, false, false, false, false, false⟩

/-- The tail of the `Serial` pipeline after the optional model assertion has
been checked (handlers_sign.go lines 135-181). -/
def Serial.afterModelCheck (env : SerialEnv) (apiKey : String)
    (assertion : Assertion) : SerialOutcome :=
  match env.validateDeviceNonce with
  | .error _ => SerialOutcome.earlyErr ErrorInvalidNonce
  | .ok _ =>
  let fm := findModel ⟨apiKey, env.findModelDB, env.getSubstoreModel⟩
  if !fm.resp.success then SerialOutcome.earlyErr fm.resp
  else if !fm.model.keyActive then SerialOutcome.earlyErr ErrorInactiveModel
  else
  let slog0 : SigningLog :=
    ⟨0, assertion.brandID, assertion.model, "", assertion.signKeyID, 0, false⟩
  match serialRequestToSerial env.now env.signingDB assertion slog0 with
  | .panicked => ⟨⟨false, "", "", 0⟩, none, false, false, false, false, true⟩
  | .err _ => SerialOutcome.earlyErr ErrorCreateAssertion
  | .ok _ _ =>
    match env.signAssertion with
    | .error msg =>
      ⟨⟨false, "signing-assertion", msg, 400⟩, none, true, false, false, false, false⟩
    | .ok signedAssertion =>
      match env.createSigningLog with
      | .error msg =>
        ⟨⟨false, "logging-assertion", msg, 400⟩, none, true, true, true, false, false⟩
      | .ok _ =>
        ⟨SuccessResponse, some signedAssertion, true, true, true, true, false⟩

/-- `Serial` (handlers_sign.go lines 74-181): the signing pipeline.
Authenticate the API key; decode one or two assertions and require the
stream to end; type-check them and require matching brand and model; consume
the nonce; resolve the model and require an active key; convert the
serial-request into a serial assertion; sign it; persist the signing log;
only then write the signed assertion to the response. -/
def Serial (env : SerialEnv) : SerialOutcome :=
  match env.checkModelAPI with
  | .error _ => SerialOutcome.earlyErr ErrorInvalidAPIKey
  | .ok apiKey =>
  match env.decode1 with
  | .eof => SerialOutcome.earlyErr ErrorEmptyData
  | .err msg =>
    SerialOutcome.earlyErr ⟨false, ErrorInvalidAssertion.code, msg, 400⟩
  | .ok assertion =>
  match env.decode2 with
  | .err msg =>
    SerialOutcome.earlyErr ⟨false, ErrorInvalidAssertion.code, msg, 400⟩
  | d2 =>
  let modelAssert : Option Assertion :=
    match d2 with
    | .ok m => some m
    | _ => none
  match env.decode3 with
  | .ok _ =>
    SerialOutcome.earlyErr
      ⟨false, ErrorInvalidAssertion.code,
        "unexpected assertion in the request stream", 400⟩
  | .err msg =>
    SerialOutcome.earlyErr ⟨false, ErrorInvalidAssertion.code, msg, 400⟩
  | .eof =>
  if assertion.type ≠ "serial-request" then
    SerialOutcome.earlyErr ErrorInvalidType
  else
  match modelAssert with
  | some m =>
    if m.type ≠ "model" then
      SerialOutcome.earlyErr ErrorInvalidSecondType
    else if m.brandID ≠ assertion.brandID ∨ m.model ≠ assertion.model then
      SerialOutcome.earlyErr
        ⟨false, "mismatched-model",
          "Model and serial-request assertion do not match", 400⟩
    else
      Serial.afterModelCheck env apiKey assertion
  | none => Serial.afterModelCheck env apiKey assertion

/-- The environment of one `RequestID` call: the API-key check and the
outcomes of the two database calls for this run. -/
structure RequestIDEnv where
  checkModelAPI : Except Unit String
  deleteExpiredDeviceNonces : Except String Unit
  createDeviceNonce : Except String String

/-- Observable outcome of a `RequestID` call: the error envelope and the
nonce written to the JSON response, if any. -/
structure RequestIDOutcome where
  resp : ErrorResponse
  nonceIssued : Option String
deriving Repr, DecidableEq

/-- `RequestID` (handlers_sign.go lines 47-71): check the API key, delete
expired nonces, create and return a fresh nonce. -/
def RequestID (env : RequestIDEnv) : RequestIDOutcome :=
  match env.checkModelAPI with
  | .error _ => ⟨ErrorInvalidAPIKey, none⟩
  | .ok _ =>
  match env.deleteExpiredDeviceNonces with
  | .error _ => ⟨ErrorGenerateNonce, none⟩
  | .ok _ =>
  match env.createDeviceNonce with
  | .error _ => ⟨ErrorGenerateNonce, none⟩
  | .ok nonce => ⟨SuccessResponse, some nonce⟩

/-- The per-entry loop of `FactoryClient.Accounts` (sync client, lines
68-73): upsert each fetched account; a failing `SyncAccount` call returns
its error immediately, so the remaining entries are not processed.  Returns
the error (if any) and the list of entries that were attempted, in order. -/
def accountsSyncLoop {α : Type} (syncErr : α → Option String) :
    List α → Option String × List α
  | [] => (none, [])
  | a :: rest =>
    match syncErr a with
    | some e => (some e, [a])
    | none =>
      let tail := accountsSyncLoop syncErr rest
      (tail.1, a :: tail.2)

/-- The per-entry loop of `FactoryClient.Models` (sync client, lines
143-150): same abort-on-first-error shape as the accounts loop. -/
def modelsSyncLoop {α : Type} (syncErr : α → Option String) :
    List α → Option String × List α
  | [] => (none, [])
  | m :: rest =>
    match syncErr m with
    | some e => (some e, [m])
    | none =>
      let tail := modelsSyncLoop syncErr rest
      (tail.1, m :: tail.2)

/-- The per-entry loop of `FactoryClient.SigningKeys` (sync client, lines
100-124): skip a keypair already present locally; otherwise insert it and
record its auth-key setting; a failure of either database write returns its
error immediately, so the remaining entries are not processed. -/
def signingKeysLoop {α : Type} (present : α → Bool)
    (syncErr putErr : α → Option String) :
    List α → Option String × List α
  | [] => (none, [])
  | k :: rest =>
    if present k then
      let tail := signingKeysLoop present syncErr putErr rest
      (tail.1, k :: tail.2)
    else
      match syncErr k with
      | some e => (some e, [k])
      | none =>
        match putErr k with
        | some e => (some e, [k])
        | none =>
          let tail := signingKeysLoop present syncErr putErr rest
          (tail.1, k :: tail.2)

/-- Modelled from the spec: `DB.SyncSigningLog` is not under the source
tree; it returns the signing-log entries that have not been synced yet. -/
def SyncSigningLog (db : List SigningLog) : List SigningLog :=
  db.filter (fun l => !l.synced)

/-- Modelled from the spec: `DB.SyncUpdateSigningLog` is not under the
source tree; it marks the entry with the given id as synced. -/
def SyncUpdateSigningLog (db : List SigningLog) (id : Nat) : List SigningLog :=
  db.map (fun l => if l.id = id then { l with synced := true } else l)

/-- The per-entry loop of `FactoryClient.SigningLogs` (sync client, lines
165-177), over the fetched pending entries against the database state:
send each entry; on send failure leave it for the next sync and continue;
on send success mark it synced, and a failure of the marking call is only
logged, leaving the entry unsynced.  Returns the final database state, the
ids attempted and the ids successfully sent (uploaded), in order. -/
def signingLogsLoop (send markOk : Nat → Bool) :
    List SigningLog → List SigningLog → List SigningLog × List Nat × List Nat
  | [], db => (db, [], [])
  | l :: rest, db =>
    if send l.id then
      let db2 := if markOk l.id then SyncUpdateSigningLog db l.id else db
      let tail := signingLogsLoop send markOk rest db2
      (tail.1, l.id :: tail.2.1, l.id :: tail.2.2)
    else
      let tail := signingLogsLoop send markOk rest db
      (tail.1, l.id :: tail.2.1, tail.2.2)

/-- One `FactoryClient.SigningLogs` run (sync client, lines 156-180): fetch
the unsynced entries, then push them through the per-entry loop. -/
def SigningLogsRun (send markOk : Nat → Bool) (db : List SigningLog) :
    List SigningLog × List Nat × List Nat :=
  signingLogsLoop send markOk (SyncSigningLog db) db

/-- Modelled from the spec: `DB.SyncDeleteTestLog` is not under the source
tree; it deletes the test-log entry with the given id. -/
def SyncDeleteTestLog (db : List SigningLog) (id : Nat) : List SigningLog :=
  db.filter (fun l => l.id ≠ id)

/-- The per-entry loop of `FactoryClient.TestLogs` (sync client, lines
192-204): same continue-on-failure shape as the signing-logs loop, with the
sent entry deleted instead of marked; a failed delete is only logged. -/
def testLogsLoop (send delOk : Nat → Bool) :
    List SigningLog → List SigningLog → List SigningLog × List Nat × List Nat
  | [], db => (db, [], [])
  | l :: rest, db =>
    if send l.id then
      let db2 := if delOk l.id then SyncDeleteTestLog db l.id else db
      let tail := testLogsLoop send delOk rest db2
      (tail.1, l.id :: tail.2.1, l.id :: tail.2.2)
    else
      let tail := testLogsLoop send delOk rest db
      (tail.1, l.id :: tail.2.1, tail.2.2)

/-- The serial value carried by the emitted assertion, when the conversion
succeeded. -/
def SROutcome.serialUsed : SROutcome → Option String
  | .ok hdrs _ => some hdrs.serial
  | _ => none

/-- A sample active model used as concrete input by the witnesses. -/
def sampleModel : Model := ⟨"acme", "rpi", "K", "acme", "kid1", "sealed1", true⟩

/-- A sample sub-store row pivoting to `sampleModel`. -/
def sampleSubstore : Substore := ⟨sampleModel, "store1", "SN2", "rpi-alt"⟩

/-- A sample decoded serial-request assertion with the serial in its header. -/
def sampleAssertion : Assertion :=
  ⟨"serial-request", "acme", "rpi", some "SN1", "DK", "SKH", "42", "N1",
    0, [], "fp1", "content", "sig"⟩

/-- A serial-request with no serial header but a string serial in the body. -/
def bodySerialAssertion : Assertion :=
  { sampleAssertion with
      serialHeader := none
      bodyYaml := [("serial", YVal.str "SN9")]
      bodyLen := 12 }

/-- A serial-request with no serial header and a numeric serial in the body. -/
def numSerialAssertion : Assertion :=
  { sampleAssertion with
      serialHeader := none
      bodyYaml := [("serial", YVal.num 42)]
      bodyLen := 10 }

/-- A serial-request with no serial in the header nor in the body. -/
def noSerialAssertion : Assertion :=
  { sampleAssertion with serialHeader := none, bodyYaml := [] }

/-- A `Serial` environment in which every step up to signing succeeds and
the keystore sign call fails. -/
def signFailEnv : SerialEnv :=
  ⟨.ok "K", .ok sampleAssertion, .eof, .eof, .ok (), .ok sampleModel,
    .error (), .error "crypto failure", .ok (), [], "2026-10-11T00:00:00Z"⟩

/-- A `Serial` environment in which signing succeeds and the signing-log
persist fails. -/
def logFailEnv : SerialEnv :=
  { signFailEnv with
      signAssertion := .ok "SIGNED"
      createSigningLog := .error "db down" }

/-- A `RequestID` environment with a valid API key whose expired-nonce sweep
fails. -/
def sweepFailEnv : RequestIDEnv := ⟨.ok "K", .error "db down", .ok "N1"⟩

/-- A factory signing-log table with a single unsynced entry. -/
def syncSampleDB : List SigningLog := [⟨1, "acme", "rpi", "SN1", "fp1", 1, false⟩]

/-- C3: findModel tie-breaking and sub-store fallback.  A successful direct
(brand, model, api-key) lookup is returned as is and the sub-store query is
never issued; when the direct lookup fails and a sub-store row exists, the
resolution succeeds with the origin model exactly when the origin model
carries the presented API key, and fails with invalid-model-substore
otherwise. -/
theorem findModel_resolution_order (env : FindModelEnv) (m : Model)
    (ss : Substore) :
    (env.findModelDB = .ok m →
      findModel env = ⟨m, SuccessResponse, false⟩) ∧
    (env.findModelDB = .error () → env.getSubstoreModel = .ok ss →
      ss.fromModel.apiKey = env.apiKey →
      findModel env = ⟨ss.fromModel, SuccessResponse, true⟩) ∧
    (env.findModelDB = .error () → env.getSubstoreModel = .ok ss →
      ss.fromModel.apiKey ≠ env.apiKey →
      findModel env = ⟨ss.fromModel, ErrorInvalidModelSubstore, true⟩) := by
  refine ⟨fun h1 => ?_, fun h1 h2 h3 => ?_, fun h1 h2 h3 => ?_⟩
  · simp [findModel, h1]
  · simp [findModel, h1, h2, h3]
  · simp [findModel, h1, h2, h3]

/-- Witness for C3 at concrete inputs: a successful direct lookup, a pivot
with the matching API key, and a pivot with a wrong API key. -/
theorem findModel_resolution_order_witness :
    findModel ⟨"K", .ok sampleModel, .error ()⟩
        = ⟨sampleModel, SuccessResponse, false⟩ ∧
    findModel ⟨"K", .error (), .ok sampleSubstore⟩
        = ⟨sampleModel, SuccessResponse, true⟩ ∧
    findModel ⟨"K2", .error (), .ok sampleSubstore⟩
        = ⟨sampleModel, ErrorInvalidModelSubstore, true⟩ :=
  ⟨(findModel_resolution_order ⟨"K", .ok sampleModel, .error ()⟩
      sampleModel sampleSubstore).1 rfl,
    (findModel_resolution_order ⟨"K", .error (), .ok sampleSubstore⟩
      sampleModel sampleSubstore).2.1 rfl rfl (by decide),
    (findModel_resolution_order ⟨"K2", .error (), .ok sampleSubstore⟩
      sampleModel sampleSubstore).2.2 rfl rfl (by decide)⟩

/-- Counterexample to C6: when both the direct lookup and the sub-store
lookup fail, `findModel` returns the invalid-model-substore kind, not
invalid-model as the claim states. -/
theorem findModel_both_fail_cex :
    (findModel ⟨"K", .error (), .error ()⟩).resp.code = "invalid-model-substore"
      ∧ (findModel ⟨"K", .error (), .error ()⟩).resp.code ≠ "invalid-model" := by
  constructor <;> decide

/-- C6 as amended: when neither the direct lookup nor the sub-store lookup
finds a row, resolution fails with the invalid-model-substore kind; the
invalid-model kind is only emitted as a log line. -/
theorem findModel_both_fail_substore_error (env : FindModelEnv)
    (h1 : env.findModelDB = .error ())
    (h2 : env.getSubstoreModel = .error ()) :
    findModel env = ⟨Model.zero, ErrorInvalidModelSubstore, true⟩ := by
  simp [findModel, h1, h2]

/-- Witness for the amended C6 at a concrete environment. -/
theorem findModel_both_fail_substore_error_witness :
    findModel ⟨"K", .error (), .error ()⟩
      = ⟨Model.zero, ErrorInvalidModelSubstore, true⟩ :=
  findModel_both_fail_substore_error ⟨"K", .error (), .error ()⟩ rfl rfl

/-- C4: serial source selection.  The serial placed in the emitted assertion
is the serial header when that header is present and non-empty; when the
header is absent or empty it is read from the serial key of the YAML-decoded
body; when neither yields a value the conversion fails with the empty-serial
error. -/
theorem serial_source_selection (now : String) (db : List SigningLog)
    (a : Assertion) (slog0 : SigningLog) (s : String) :
    (a.serialHeader = some s → s ≠ "" →
      (serialRequestToSerial now db a slog0).serialUsed = some s) ∧
    ((a.serialHeader = none ∨ a.serialHeader = some "") →
      ylookup a.bodyYaml "serial" = some (YVal.str s) →
      (serialRequestToSerial now db a slog0).serialUsed = some s) ∧
    ((a.serialHeader = none ∨ a.serialHeader = some "") →
      ylookup a.bodyYaml "serial" = none →
      serialRequestToSerial now db a slog0 = .err ErrorEmptySerial.message) := by
  refine ⟨fun h hs => ?_, fun h hb => ?_, fun h hb => ?_⟩
  · simp [serialRequestToSerial, SROutcome.serialUsed, h, hs]
  · rcases h with h | h <;>
      simp [serialRequestToSerial, SROutcome.serialUsed, h, hb]
  · rcases h with h | h <;> simp [serialRequestToSerial, h, hb]

/-- Witness for C4 at concrete requests: serial in the header, serial only
in the body, serial in neither place. -/
theorem serial_source_selection_witness :
    (serialRequestToSerial "T" [] sampleAssertion
        ⟨0, "acme", "rpi", "", "fp1", 0, false⟩).serialUsed = some "SN1" ∧
    (serialRequestToSerial "T" [] bodySerialAssertion
        ⟨0, "acme", "rpi", "", "fp1", 0, false⟩).serialUsed = some "SN9" ∧
    serialRequestToSerial "T" [] noSerialAssertion
        ⟨0, "acme", "rpi", "", "fp1", 0, false⟩
      = .err ErrorEmptySerial.message :=
  ⟨(serial_source_selection "T" [] sampleAssertion
        ⟨0, "acme", "rpi", "", "fp1", 0, false⟩ "SN1").1 (by decide) (by decide),
    (serial_source_selection "T" [] bodySerialAssertion
        ⟨0, "acme", "rpi", "", "fp1", 0, false⟩ "SN9").2.1
      (Or.inl (by decide)) (by decide),
    (serial_source_selection "T" [] noSerialAssertion
        ⟨0, "acme", "rpi", "", "fp1", 0, false⟩ "SN1").2.2
      (Or.inl (by decide)) (by decide)⟩

/-- Characterization of a successful conversion: whenever the serial
resolves (from the header, or from the body on an absent or empty header),
`serialRequestToSerial` returns exactly the assembled serial headers and the
completed signing-log entry, with the revision set to the largest prior
revision for the tuple plus one. -/
theorem serialRequestToSerial_ok_of_resolved (now : String)
    (db : List SigningLog) (a : Assertion) (slog0 : SigningLog) (s : String)
    (hres : a.serialHeader = some s ∧ s ≠ "" ∨
      (a.serialHeader = none ∨ a.serialHeader = some "") ∧
        ylookup a.bodyYaml "serial" = some (YVal.str s)) :
    serialRequestToSerial now db a slog0 =
      SROutcome.ok
        { type := "serial", authorityID := a.brandID, brandID := a.brandID,
          serial := s, deviceKey := a.deviceKey,
          signKeySha3 := a.signKeySha3, deviceKeySha3 := a.signKeySha3,
          model := a.model, timestamp := now,
          revision := toString (maxRevisionFor db slog0.make slog0.model s + 1),
          bodyLength := if a.bodyLen > 0 then some a.bodyLengthHeader else none }
        { slog0 with
            serialNumber := s
            revision := maxRevisionFor db slog0.make slog0.model s + 1 } := by
  rcases hres with ⟨h, hs⟩ | ⟨h, hb⟩
  · simp [serialRequestToSerial, CheckForDuplicate, h, hs]
  · rcases h with h | h <;>
      simp [serialRequestToSerial, CheckForDuplicate, h, hb]

/-- C2: once the serial resolves (so the duplicate check is reached) the
conversion always succeeds — a detected duplicate is only logged, it never
aborts — and the revision recorded in the signing-log entry and in the
revision header is the largest prior revision for the
(brand, model, serial) tuple plus one; `maxRevisionFor` folds over the prior
entries for the tuple, so with no prior entry it is 0 and the revision is 1. -/
theorem serial_revision_assignment (now : String) (db : List SigningLog)
    (a : Assertion) (slog0 : SigningLog) (s : String)
    (hres : a.serialHeader = some s ∧ s ≠ "" ∨
      (a.serialHeader = none ∨ a.serialHeader = some "") ∧
        ylookup a.bodyYaml "serial" = some (YVal.str s)) :
    ∃ hdrs slog,
      serialRequestToSerial now db a slog0 = SROutcome.ok hdrs slog ∧
      slog.serialNumber = s ∧
      slog.revision = maxRevisionFor db slog0.make slog0.model s + 1 ∧
      hdrs.revision = toString (maxRevisionFor db slog0.make slog0.model s + 1) ∧
      (maxRevisionFor db slog0.make slog0.model s = 0 → slog.revision = 1) :=
  ⟨_, _, serialRequestToSerial_ok_of_resolved now db a slog0 s hres,
    rfl, rfl, rfl, fun h0 => by simp [h0]⟩

/-- Witness for C2 at a concrete request against a table already holding a
revision-1 entry for the same tuple: the next revision is 2. -/
theorem serial_revision_assignment_witness :
    ∃ hdrs slog,
      serialRequestToSerial "T" syncSampleDB sampleAssertion
          ⟨0, "acme", "rpi", "", "fp1", 0, false⟩ = SROutcome.ok hdrs slog ∧
      slog.serialNumber = "SN1" ∧
      slog.revision = maxRevisionFor syncSampleDB "acme" "rpi" "SN1" + 1 ∧
      hdrs.revision = toString (maxRevisionFor syncSampleDB "acme" "rpi" "SN1" + 1) ∧
      (maxRevisionFor syncSampleDB "acme" "rpi" "SN1" = 0 → slog.revision = 1) :=
  serial_revision_assignment "T" syncSampleDB sampleAssertion
    ⟨0, "acme", "rpi", "", "fp1", 0, false⟩ "SN1"
    (Or.inl ⟨by decide, by decide⟩)

/-- C10: when the serial header is absent or empty and the YAML body holds a
non-string serial value, the unchecked string type assertion in
`serialRequestToSerial` panics instead of returning an error. -/
theorem serial_body_num_panics (now : String) (db : List SigningLog)
    (a : Assertion) (slog0 : SigningLog) (n : Int)
    (h : a.serialHeader = none ∨ a.serialHeader = some "")
    (hb : ylookup a.bodyYaml "serial" = some (YVal.num n)) :
    serialRequestToSerial now db a slog0 = SROutcome.panicked := by
  rcases h with h | h <;> simp [serialRequestToSerial, h, hb]

/-- Witness for C10: a request whose body carries the unquoted number 42 as
its serial panics the conversion. -/
theorem serial_body_num_panics_witness :
    serialRequestToSerial "T" [] numSerialAssertion
        ⟨0, "acme", "rpi", "", "fp1", 0, false⟩ = SROutcome.panicked :=
  serial_body_num_panics "T" [] numSerialAssertion
    ⟨0, "acme", "rpi", "", "fp1", 0, false⟩ 42 (Or.inl (by decide)) (by decide)

/-- Counterexample to C5: with a valid API key and a failing expired-nonce
sweep, `RequestID` returns the generate-nonce error and issues no nonce —
the sweep failure does block issuance, against the claim. -/
theorem requestID_sweep_failure_cex :
    RequestID sweepFailEnv = ⟨ErrorGenerateNonce, none⟩ ∧
    (RequestID sweepFailEnv).resp.success = false ∧
    (RequestID sweepFailEnv).nonceIssued = none := by
  refine ⟨?_, ?_, ?_⟩ <;> decide

/-- C5 as amended: for every `RequestID` call with a valid API key, a
failure of the opportunistic deletion of expired nonce rows aborts
issuance: the handler returns the generate-nonce error and no nonce is
generated or returned. -/
theorem requestID_sweep_failure_blocks (env : RequestIDEnv) (k e : String)
    (hk : env.checkModelAPI = .ok k)
    (hd : env.deleteExpiredDeviceNonces = .error e) :
    RequestID env = ⟨ErrorGenerateNonce, none⟩ := by
  simp [RequestID, hk, hd]

/-- Witness for the amended C5 at a concrete environment. -/
theorem requestID_sweep_failure_blocks_witness :
    RequestID sweepFailEnv = ⟨ErrorGenerateNonce, none⟩ :=
  requestID_sweep_failure_blocks sweepFailEnv "K" "db down" rfl rfl

/-- The error envelope coming out of `findModel` is either the success
response or the invalid-model-substore kind. -/
theorem findModel_resp_options (env : FindModelEnv) :
    (findModel env).resp = SuccessResponse ∨
      (findModel env).resp = ErrorInvalidModelSubstore := by
  unfold findModel
  split
  · exact Or.inl rfl
  split
  · exact Or.inr rfl
  split
  · exact Or.inl rfl
  · exact Or.inr rfl

/-- Shape of the tail of the pipeline: it ends in an early error carrying
HTTP 400, the panic, a signing failure, a logging failure, or success. -/
theorem afterModelCheck_cases (env : SerialEnv) (k : String) (a : Assertion) :
    (∃ e, Serial.afterModelCheck env k a = SerialOutcome.earlyErr e ∧
        e.statusCode = 400) ∨
    Serial.afterModelCheck env k a
        = ⟨⟨false, "", "", 0⟩, none, false, false, false, false, true⟩ ∨
    (∃ m, Serial.afterModelCheck env k a
        = ⟨⟨false, "signing-assertion", m, 400⟩, none, true, false, false, false, false⟩) ∨
    (∃ m, Serial.afterModelCheck env k a
        = ⟨⟨false, "logging-assertion", m, 400⟩, none, true, true, true, false, false⟩) ∨
    (∃ b, Serial.afterModelCheck env k a
        = ⟨SuccessResponse, some b, true, true, true, true, false⟩) := by
  simp only [Serial.afterModelCheck]
  split
  · exact Or.inl ⟨ErrorInvalidNonce, rfl, rfl⟩
  split
  · rename_i h
    rcases findModel_resp_options ⟨k, env.findModelDB, env.getSubstoreModel⟩ with hr | hr
    · rw [hr] at h; simp [SuccessResponse] at h
    · exact Or.inl ⟨_, rfl, by simp [hr, ErrorInvalidModelSubstore]⟩
  split
  · exact Or.inl ⟨ErrorInactiveModel, rfl, rfl⟩
  split
  · exact Or.inr (Or.inl rfl)
  · exact Or.inl ⟨ErrorCreateAssertion, rfl, rfl⟩
  split
  · exact Or.inr (Or.inr (Or.inl ⟨_, rfl⟩))
  split
  · exact Or.inr (Or.inr (Or.inr (Or.inl ⟨_, rfl⟩)))
  · exact Or.inr (Or.inr (Or.inr (Or.inr ⟨_, rfl⟩)))

/-- Shape of a full `Serial` run: every outcome is an early error carrying
HTTP 400, the panic, a signing failure, a logging failure, or success. -/
theorem serial_shape (env : SerialEnv) :
    (∃ e, Serial env = SerialOutcome.earlyErr e ∧ e.statusCode = 400) ∨
    Serial env = ⟨⟨false, "", "", 0⟩, none, false, false, false, false, true⟩ ∨
    (∃ m, Serial env
        = ⟨⟨false, "signing-assertion", m, 400⟩, none, true, false, false, false, false⟩) ∨
    (∃ m, Serial env
        = ⟨⟨false, "logging-assertion", m, 400⟩, none, true, true, true, false, false⟩) ∨
    (∃ b, Serial env = ⟨SuccessResponse, some b, true, true, true, true, false⟩) := by
  simp only [Serial]
  split
  · exact Or.inl ⟨ErrorInvalidAPIKey, rfl, rfl⟩
  split
  · exact Or.inl ⟨ErrorEmptyData, rfl, rfl⟩
  · exact Or.inl ⟨_, rfl, rfl⟩
  · split
    · exact Or.inl ⟨_, rfl, rfl⟩
    split
    · exact Or.inl ⟨_, rfl, rfl⟩
    · exact Or.inl ⟨_, rfl, rfl⟩
    split
    · exact Or.inl ⟨ErrorInvalidType, rfl, rfl⟩
    split
    · split
      · exact Or.inl ⟨ErrorInvalidSecondType, rfl, rfl⟩
      split
      · exact Or.inl ⟨_, rfl, rfl⟩
      · exact afterModelCheck_cases env _ _
    · exact afterModelCheck_cases env _ _

/-- C1: persist-failure handling in the `Serial` pipeline.  When the sign
step succeeded but the signing-log entry was not created, the handler
returned the logging-assertion kind and wrote no signed assertion to the
response; and every failing call creates no signing-log entry (the entry is
created exactly on the success path). -/
theorem serial_persist_failure_policy (env : SerialEnv) :
    ((Serial env).signSucceeded = true → (Serial env).logCreated = false →
      (Serial env).resp.code = "logging-assertion" ∧
        (Serial env).written = none) ∧
    ((Serial env).resp.success = false → (Serial env).logCreated = false) := by
  rcases serial_shape env with ⟨e, he, -⟩ | he | ⟨m, he⟩ | ⟨m, he⟩ | ⟨b, he⟩ <;>
    rw [he] <;> simp [SerialOutcome.earlyErr, SuccessResponse]

/-- Witness for C1 at a concrete environment in which signing succeeds and
the signing-log insert fails. -/
theorem serial_persist_failure_policy_witness :
    (Serial logFailEnv).resp.code = "logging-assertion" ∧
      (Serial logFailEnv).written = none :=
  (serial_persist_failure_policy logFailEnv).1 (by decide) (by decide)

/-- C9 as amended: the HTTP status attached to an error of kind
signing-assertion or logging-assertion is 400 (Bad Request), the same 4xx
status as the client-caused kinds; the `Serial` handler emits no 5xx. -/
theorem serial_sign_log_status_400 (env : SerialEnv)
    (h : (Serial env).resp.code = "signing-assertion" ∨
      (Serial env).resp.code = "logging-assertion") :
    (Serial env).resp.statusCode = 400 ∧ (Serial env).resp.statusCode < 500 := by
  rcases serial_shape env with ⟨e, he, h4⟩ | he | ⟨m, he⟩ | ⟨m, he⟩ | ⟨b, he⟩ <;>
    rw [he] at h ⊢ <;> simp_all [SerialOutcome.earlyErr, SuccessResponse]

/-- Witness for the amended C9 at the concrete signing-failure environment. -/
theorem serial_sign_log_status_400_witness :
    (Serial signFailEnv).resp.statusCode = 400 ∧
      (Serial signFailEnv).resp.statusCode < 500 :=
  serial_sign_log_status_400 signFailEnv (Or.inl (by decide))

/-- Counterexample to C9: the error envelope built for a keystore signing
failure carries the signing-assertion kind with HTTP status 400, which is
not a 5xx server-error status; the logging-assertion kind also carries 400. -/
theorem serial_error_status_cex :
    (Serial signFailEnv).resp.code = "signing-assertion" ∧
    (Serial signFailEnv).resp.statusCode = 400 ∧
    ¬ (500 ≤ (Serial signFailEnv).resp.statusCode ∧
        (Serial signFailEnv).resp.statusCode < 600) ∧
    (Serial logFailEnv).resp.code = "logging-assertion" ∧
    (Serial logFailEnv).resp.statusCode = 400 := by
  refine ⟨?_, ?_, ?_, ?_, ?_⟩ <;> decide

/-- Marking one id as synced never unmarks an entry of another id. -/
theorem syncUpdate_preserves (db : List SigningLog) (j i : Nat)
    (h : ∀ l ∈ db, l.id = i → l.synced = true) :
    ∀ l ∈ SyncUpdateSigningLog db j, l.id = i → l.synced = true := by
  intro l hl hid
  rcases List.mem_map.mp hl with ⟨l0, hl0, hf⟩
  by_cases hj : l0.id = j
  · rw [← hf]; simp [hj]
  · rw [← hf] at hid ⊢
    simp [hj] at hid ⊢
    exact h l0 hl0 hid

/-- `SyncUpdateSigningLog` marks every entry carrying the given id. -/
theorem syncUpdate_marks (db : List SigningLog) (i : Nat) :
    ∀ l ∈ SyncUpdateSigningLog db i, l.id = i → l.synced = true := by
  intro l hl hid
  rcases List.mem_map.mp hl with ⟨l0, hl0, hf⟩
  by_cases hj : l0.id = i
  · rw [← hf]; simp [hj]
  · rw [← hf] at hid; simp [hj] at hid

/-- The push loop only ever marks entries, so an id whose entries are all
synced stays fully synced through a run. -/
theorem signingLogsLoop_preserves (send markOk : Nat → Bool) (i : Nat) :
    ∀ pending db, (∀ l ∈ db, l.id = i → l.synced = true) →
      ∀ l ∈ (signingLogsLoop send markOk pending db).1, l.id = i →
        l.synced = true := by
  intro pending
  induction pending with
  | nil => intro db h; simpa [signingLogsLoop] using h
  | cons p rest ih =>
    intro db h
    simp only [signingLogsLoop]
    split
    · split
      · exact ih _ (syncUpdate_preserves db p.id i h)
      · exact ih _ h
    · exact ih _ h

/-- When the marking call always succeeds, every id uploaded during a push
run is synced in the resulting database state. -/
theorem signingLogsLoop_uploaded_synced (send : Nat → Bool) (i : Nat) :
    ∀ pending db, i ∈ (signingLogsLoop send (fun _ => true) pending db).2.2 →
      ∀ l ∈ (signingLogsLoop send (fun _ => true) pending db).1, l.id = i →
        l.synced = true := by
  intro pending
  induction pending with
  | nil => intro db h; simp [signingLogsLoop] at h
  | cons p rest ih =>
    intro db h
    by_cases hs : send p.id
    · simp only [signingLogsLoop, hs, if_true] at h ⊢
      rcases List.mem_cons.mp h with rfl | h2
      · exact signingLogsLoop_preserves send _ _ rest _ (syncUpdate_marks db _)
      · exact ih _ h2
    · simp only [signingLogsLoop, hs, Bool.false_eq_true, if_false] at h ⊢
      exact ih _ h

/-- An uploaded id belongs to some entry of the pending list the run was
started with. -/
theorem signingLogsLoop_uploaded_mem (send markOk : Nat → Bool) (i : Nat) :
    ∀ pending db, i ∈ (signingLogsLoop send markOk pending db).2.2 →
      ∃ l ∈ pending, l.id = i := by
  intro pending
  induction pending with
  | nil => intro db h; simp [signingLogsLoop] at h
  | cons p rest ih =>
    intro db h
    by_cases hs : send p.id
    · simp only [signingLogsLoop, hs, if_true] at h
      rcases List.mem_cons.mp h with rfl | h2
      · exact ⟨p, List.mem_cons_self p rest, rfl⟩
      · obtain ⟨l, hl, hid⟩ := ih _ h2
        exact ⟨l, List.mem_cons_of_mem p hl, hid⟩
    · simp only [signingLogsLoop, hs, Bool.false_eq_true, if_false] at h
      obtain ⟨l, hl, hid⟩ := ih _ h
      exact ⟨l, List.mem_cons_of_mem p hl, hid⟩

/-- C7 as amended: when the mark-synced call succeeds for every sent entry,
signing-log upload is exactly-once across runs — an id uploaded by one
`SigningLogs` run is never uploaded by the following run, whatever transport
and marking outcomes that later run meets.  (When marking fails the
entry stays unsynced and is re-sent, making upload at-least-once; see the
counterexample.) -/
theorem signingLogs_upload_once (send send2 markOk2 : Nat → Bool)
    (db : List SigningLog) (i : Nat)
    (h1 : i ∈ (SigningLogsRun send (fun _ => true) db).2.2) :
    i ∉ (SigningLogsRun send2 markOk2
        (SigningLogsRun send (fun _ => true) db).1).2.2 := by
  intro h2
  obtain ⟨l, hl, hid⟩ := signingLogsLoop_uploaded_mem send2 markOk2 i _ _ h2
  have hmem := List.mem_filter.mp hl
  have hfalse : l.synced = false := by simpa using hmem.2
  have htrue : l.synced = true :=
    signingLogsLoop_uploaded_synced send i (SyncSigningLog db) db h1 l hmem.1 hid
  rw [htrue] at hfalse
  cases hfalse

/-- Counterexample to C7: an entry whose send succeeds but whose
mark-synced call fails stays unsynced and is uploaded again by the next
run, so upload across runs is not exactly-once. -/
theorem signingLogs_resend_cex :
    1 ∈ (SigningLogsRun (fun _ => true) (fun _ => false) syncSampleDB).2.2 ∧
    1 ∈ (SigningLogsRun (fun _ => true) (fun _ => false)
        ((SigningLogsRun (fun _ => true) (fun _ => false) syncSampleDB).1)).2.2 := by
  constructor <;> decide

/-- Witness for the amended C7 on a one-entry table with reliable
marking. -/
theorem signingLogs_upload_once_witness :
    1 ∈ (SigningLogsRun (fun _ => true) (fun _ => true) syncSampleDB).2.2 ∧
    1 ∉ (SigningLogsRun (fun _ => true) (fun _ => true)
        ((SigningLogsRun (fun _ => true) (fun _ => true) syncSampleDB).1)).2.2 :=
  ⟨by decide,
    signingLogs_upload_once (fun _ => true) (fun _ => true) (fun _ => true)
      syncSampleDB 1 (by decide)⟩

/-- The signing-logs push loop attempts every pending entry, whatever the
send and mark outcomes are: per-entry failures never abort the batch. -/
theorem signingLogsLoop_attempts_all (send markOk : Nat → Bool) :
    ∀ pending db,
      (signingLogsLoop send markOk pending db).2.1 = pending.map SigningLog.id := by
  intro pending
  induction pending with
  | nil => intro db; simp [signingLogsLoop]
  | cons p rest ih =>
    intro db
    by_cases hs : send p.id <;> simp [signingLogsLoop, hs, ih]

/-- The test-logs push loop attempts every pending entry, whatever the
send and delete outcomes are: per-entry failures never abort the batch. -/
theorem testLogsLoop_attempts_all (send delOk : Nat → Bool) :
    ∀ pending db,
      (testLogsLoop send delOk pending db).2.1 = pending.map SigningLog.id := by
  intro pending
  induction pending with
  | nil => intro db; simp [testLogsLoop]
  | cons p rest ih =>
    intro db
    by_cases hs : send p.id <;> simp [testLogsLoop, hs, ih]

/-- C8 as amended: the per-entry failure policy differs by task.  The
Accounts, Models and SigningKeys loops abort on the first failing entry and
return its error, leaving the remaining entries unprocessed, while the
SigningLogs and TestLogs loops attempt every entry regardless of per-entry
failures. -/
theorem replication_per_entry_policy {α : Type} (syncErr : α → Option String)
    (x : α) (xs : List α) (e : String) (hx : syncErr x = some e)
    (present : α → Bool) (hp : present x = false)
    (putErr : α → Option String)
    (send markOk delOk : Nat → Bool) (pending db : List SigningLog) :
    accountsSyncLoop syncErr (x :: xs) = (some e, [x]) ∧
    modelsSyncLoop syncErr (x :: xs) = (some e, [x]) ∧
    signingKeysLoop present syncErr putErr (x :: xs) = (some e, [x]) ∧
    (signingLogsLoop send markOk pending db).2.1 = pending.map SigningLog.id ∧
    (testLogsLoop send delOk pending db).2.1 = pending.map SigningLog.id := by
  refine ⟨?_, ?_, ?_, signingLogsLoop_attempts_all send markOk pending db,
    testLogsLoop_attempts_all send delOk pending db⟩ <;>
    simp [accountsSyncLoop, modelsSyncLoop, signingKeysLoop, hx, hp]

/-- Witness for the amended C8 at concrete entry lists and outcomes. -/
theorem replication_per_entry_policy_witness :
    accountsSyncLoop (fun a => if a = "a1" then some "db error" else none)
        ["a1", "a2"] = (some "db error", ["a1"]) ∧
    modelsSyncLoop (fun a => if a = "a1" then some "db error" else none)
        ["a1", "a2"] = (some "db error", ["a1"]) ∧
    signingKeysLoop (fun _ => false)
        (fun a => if a = "a1" then some "db error" else none)
        (fun _ => none) ["a1", "a2"] = (some "db error", ["a1"]) ∧
    (signingLogsLoop (fun _ => true) (fun _ => true) syncSampleDB
        syncSampleDB).2.1 = syncSampleDB.map SigningLog.id ∧
    (testLogsLoop (fun _ => true) (fun _ => true) syncSampleDB
        syncSampleDB).2.1 = syncSampleDB.map SigningLog.id :=
  replication_per_entry_policy
    (fun a => if a = "a1" then some "db error" else none) "a1" ["a2"]
    "db error" (by decide) (fun _ => false) (by decide) (fun _ => none)
    (fun _ => true) (fun _ => true) (fun _ => true) syncSampleDB syncSampleDB

/-- Counterexample to C8: in the Accounts loop a failure on the first
entry aborts the batch — the error is returned and the second entry is
never attempted, against the claimed continue-and-retry policy. -/
theorem accounts_abort_cex :
    accountsSyncLoop (fun a => if a = "a1" then some "db error" else none)
        ["a1", "a2"] = (some "db error", ["a1"]) ∧
    "a2" ∉ (accountsSyncLoop
        (fun a => if a = "a1" then some "db error" else none) ["a1", "a2"]).2 := by
  constructor <;> decide

end SerialVault

